import Mathlib

/-!
Verification of the load-generation / verification engine of the `dic`
repository against its design document.

The development shallowly embeds the two source components the claims are
about:

* `CompassCFindClient` (`src/compass_cfind_client.py`): `_execute_find`,
  `find_study_by_uid`, `dataset_to_dict`.  Network behaviour (association,
  C-FIND responses) is an oracle parameter.
* `verify_study_arrived` (`src/tests/conftest.py`): the polling loop, with an
  injectable clock: each lookup call has a duration, each sleep advances the
  clock by the slept amount, and the loop takes a fuel argument since the
  source `while True` loop terminates only through wall-clock progress.
* `PerfMetrics` (`metrics.py`, not present in the source tree): modelled from
  the spec.

Time is modelled by `ℚ`.
-/

namespace Dic

/-- A DICOM dataset, modelled as an association list from attribute names to
string values; Python `hasattr`/`getattr` become list lookup. -/
abbrev Dataset := List (String × String)

/-- The attribute names listed in `CompassCFindClient.dataset_to_dict`. -/
def studyAttrs : List String :=
  ["StudyInstanceUID", "PatientID", "PatientName", "PatientBirthDate",
   "PatientSex", "StudyDate", "StudyTime", "AccessionNumber",
   "StudyDescription", "ModalitiesInStudy", "NumberOfStudyRelatedSeries",
   "NumberOfStudyRelatedInstances", "SeriesInstanceUID", "SeriesNumber",
   "SeriesDescription", "Modality", "NumberOfSeriesRelatedInstances"]

/-- `CompassCFindClient.dataset_to_dict`: keep exactly the known study
attributes that are present on the dataset. -/
def dataset_to_dict (ds : Dataset) : Dataset :=
  studyAttrs.filterMap fun a => (ds.lookup a).map fun v => (a, v)

/-- Exceptions that `_execute_find` can raise: `socket.gaierror` escaping
`ae.associate`, the explicit `ConnectionError` on a failed association, and
the `RuntimeError` raised on a failure status. -/
inductive Exc where
  | gaierror
  | connectionError
  | runtimeError (status : Nat)
deriving DecidableEq

/-- The two C-FIND information models requested by the client. -/
inductive QueryModel where
  | studyRoot
  | patientRoot
deriving DecidableEq

/-- One `(status, identifier)` pair yielded by `assoc.send_c_find`; a `none`
status models a falsy status object (timed-out / aborted connection). -/
abbrev CFindResponse := Option Nat × Option Dataset

/-- Behaviour of the network for one `_execute_find` call. -/
inductive AssocResult where
  | assocRaise (e : Exc)
  | notEstablished
  | established (responses : List CFindResponse)

/-- The network, as seen by `_execute_find`: given the chosen query model and
the query dataset, how does the association turn out. -/
abbrev Oracle := QueryModel → Dataset → AssocResult

/-- `CompassCFindConfig` (`src/compass_cfind_client.py`). -/
structure CFindConfig where
  host : String
  port : Nat
  remote_ae_title : String
  local_ae_title : String
  query_model : String
  timeout : Int
deriving DecidableEq

/-- The response loop of `_execute_find`: pending statuses `0xFF00`/`0xFF01`
accumulate the identifier when one is present, status `0x0000` only logs,
any other status raises `RuntimeError`, and a falsy status breaks. -/
def processResponses : List CFindResponse → List Dataset → Except Exc (List Dataset)
  | [], acc => .ok acc
  | (none, _) :: _, acc => .ok acc
  | (some s, ident) :: rest, acc =>
    if s = 0xFF00 ∨ s = 0xFF01 then
      processResponses rest (acc ++ ident.toList)
    else if s = 0 then
      processResponses rest acc
    else
      .error (.runtimeError s)

/-- `CompassCFindClient._execute_find`: pick the query model from
`config.query_model`, associate, and run the response loop.  An exception
from `ae.associate` and the `ConnectionError` on an unestablished
association both surface as `Except.error`. -/
def execute_find (cfg : CFindConfig) (oracle : Oracle) (q : Dataset) :
    Except Exc (List Dataset) :=
  let qm := if cfg.query_model.toUpper = "STUDY" then QueryModel.studyRoot
            else QueryModel.patientRoot
  match oracle qm q with
  | .assocRaise e => .error e
  | .notEstablished => .error .connectionError
  | .established rs => processResponses rs []

/-- The minimal query dataset built inside `find_study_by_uid`. -/
def buildStudyQuery (uid : String) : Dataset :=
  [("QueryRetrieveLevel", "STUDY"), ("StudyInstanceUID", uid), ("PatientID", ""),
   ("PatientName", ""), ("StudyDate", ""), ("AccessionNumber", ""),
   ("NumberOfStudyRelatedInstances", "")]

/-- One iteration of the `for model in ("PATIENT", "STUDY")` loop of
`find_study_by_uid`: overwrite `config.query_model`, run `_execute_find`,
and catch every exception (`except Exception`) as "no result". -/
def tryQueryModel (cfg : CFindConfig) (oracle : Oracle) (uid : String)
    (model : String) : CFindConfig × Option Dataset :=
  let cfg' := { cfg with query_model := model }
  match execute_find cfg' oracle (buildStudyQuery uid) with
  | .ok (d :: _) => (cfg', some d)
  | .ok [] => (cfg', none)
  | .error _ => (cfg', none)

/-- `CompassCFindClient.find_study_by_uid`: try the PATIENT model then the
STUDY model, restore `config.query_model` on every return path, return the
first match or `none`.  The `Except` in the result type records whether the
method itself raises; every per-model failure is caught in
`tryQueryModel`. -/
def find_study_by_uid (cfg : CFindConfig) (oracle : Oracle) (uid : String) :
    CFindConfig × Except Exc (Option Dataset) :=
  match tryQueryModel cfg oracle uid "PATIENT" with
  | (cfg1, some d) => ({ cfg1 with query_model := cfg.query_model }, .ok (some d))
  | (cfg1, none) =>
    match tryQueryModel cfg1 oracle uid "STUDY" with
    | (cfg2, some d) => ({ cfg2 with query_model := cfg.query_model }, .ok (some d))
    | (cfg2, none) => ({ cfg2 with query_model := cfg.query_model }, .ok none)

/-! ## The verification poller (`verify_study_arrived`, `src/tests/conftest.py`) -/

/-- Result of one `cfind_client.find_study_by_uid` call as observed by the
polling loop: a match, no match, a raised `socket.gaierror`, or any other
raised exception. -/
inductive LookupRes where
  | found (d : Dataset)
  | notFound
  | raiseGai
  | raiseOther
deriving DecidableEq

/-- One lookup attempt: how long the call took and what it produced. -/
structure LookupStep where
  dur : ℚ
  res : LookupRes
deriving DecidableEq

/-- The lookup collaborator handed to `verify_study_arrived`: its configured
host (used in the gaierror message) and, for each attempt number, the
behaviour of that attempt's `find_study_by_uid` call. -/
structure Client where
  host : String
  lookup : Nat → LookupStep

/-- Observable actions of one poll run: C-FIND queries (numbered by the
attempt counter) and sleeps (with the slept duration). -/
inductive Event where
  | query (k : Nat)
  | sleep (t : ℚ)
deriving DecidableEq

/-- How a `verify_study_arrived` call ends.  `timedOut uid reported attempts`
is the final `AssertionError`, whose message interpolates the study UID, the
value `reported` as the seconds figure (`"not found after {timeout}s"`), and
the attempt count.  `gaiError` is the `AssertionError` raised from the
`socket.gaierror` handler, which interpolates the configured host.
`disabledNone` is the early `return None` when the client is absent. -/
inductive Outcome where
  | disabledNone
  | found (d : Dataset)
  | gaiError (host : String)
  | timedOut (uid : String) (reported : ℚ) (attempts : Nat)
  | propagated
  | outOfFuel
deriving DecidableEq

/-- A finished poll run: its event trace, its outcome, and the wall-clock
time elapsed since `start` when it ended. -/
structure RunResult where
  events : List Event
  outcome : Outcome
  finalElapsed : ℚ
deriving DecidableEq

/-- The `while True` loop of `verify_study_arrived`.  `elapsed` is the
current value of `time.time() - start`, `att` the attempts counter, and
`fuel` a bound on the number of iterations (the source loop is bounded only
by wall-clock progress). -/
def verifyLoop (lookup : Nat → LookupStep) (uid host : String) (T I : ℚ) :
    ℚ → Nat → Nat → RunResult
  | elapsed, _, 0 => ⟨[], .outOfFuel, elapsed⟩
  | elapsed, att, fuel + 1 =>
    let k := att + 1
    let e1 := elapsed + (lookup k).dur
    match (lookup k).res with
    | .raiseGai => ⟨[.query k], .gaiError host, e1⟩
    | .raiseOther => ⟨[.query k], .propagated, e1⟩
    | .found d => ⟨[.query k], .found (dataset_to_dict d), e1⟩
    | .notFound =>
      if T ≤ e1 then ⟨[.query k], .timedOut uid T k, e1⟩
      else
        let s := min I (T - e1)
        if 0 < s then
          let r := verifyLoop lookup uid host T I (e1 + s) k fuel
          ⟨.query k :: .sleep s :: r.events, r.outcome, r.finalElapsed⟩
        else
          let r := verifyLoop lookup uid host T I e1 k fuel
          ⟨.query k :: r.events, r.outcome, r.finalElapsed⟩

/-- `verify_study_arrived(cfind_client, study_uid, perf_config)`: when the
client is `None`, return `None` at once; otherwise run the polling loop with
the configured timeout `T` and poll interval `I`. -/
def verify_study_arrived (client : Option Client) (uid : String)
    (T I : ℚ) (fuel : Nat) : RunResult :=
  match client with
  | none => ⟨[], .disabledNone, 0⟩
  | some c => verifyLoop c.lookup uid c.host T I 0 0 fuel

/-- Number of C-FIND queries issued in a trace. -/
def countQueries (evs : List Event) : Nat :=
  (evs.filter fun e => match e with | .query _ => true | _ => false).length

/-- Total time slept in a trace. -/
def totalSlept (evs : List Event) : ℚ :=
  (evs.map fun e => match e with | .sleep t => t | _ => 0).sum

/-- The lookup collaborator built from the C-FIND client: attempt `k` calls
`find_study_by_uid` against that attempt's network behaviour and takes
`dur k` seconds.  The config is passed unchanged to every attempt, which is
exact because `find_study_by_uid` returns its config argument with
`query_model` restored on every path. -/
def cfindLookup (cfg : CFindConfig) (oracle : Nat → Oracle) (dur : Nat → ℚ)
    (uid : String) : Nat → LookupStep := fun k =>
  { dur := dur k,
    res :=
      match (find_study_by_uid cfg (oracle k) uid).2 with
      | .ok none => .notFound
      | .ok (some d) => .found d
      | .error .gaierror => .raiseGai
      | .error _ => .raiseOther }

/-- The C-FIND client as a poller collaborator. -/
def cfindClient (cfg : CFindConfig) (oracle : Nat → Oracle) (dur : Nat → ℚ)
    (uid : String) : Client :=
  ⟨cfg.host, cfindLookup cfg oracle dur uid⟩

/-- The loop's elapsed time at the start of the iteration whose attempt
counter is `j` (so before query `j + 1`), assuming the first `j` attempts
all found no match and none of them hit the timeout: each earlier
iteration added its lookup duration and then the sleep the source computes
(`min(interval, remaining)`, slept only when positive). -/
def sElapsed (lookup : Nat → LookupStep) (T I : ℚ) : Nat → ℚ
  | 0 => 0
  | j + 1 =>
    let e := sElapsed lookup T I j + (lookup (j + 1)).dur
    let s := min I (T - e)
    if 0 < s then e + s else e

/-- An example C-FIND configuration, used to evaluate concrete runs. -/
def cfgEx : CFindConfig :=
  ⟨"badhost", 11112, "COMPASS", "QUERY_SCU", "PATIENT", 30⟩

/-- A network on which every association attempt raises `socket.gaierror`
(the query target's address cannot be resolved), on every poll attempt. -/
def gaiNet : Nat → Oracle := fun _ => fun _ _ => .assocRaise .gaierror

/-! ## `PerfMetrics` (`metrics.py`)

Modelled from the spec: the repository imports `PerfMetrics` from
`metrics.py`, which is not present in the source tree.  The spec describes
it as a lock-protected append-only sequence of `Sample` records with derived
counters (`samples`, `total`, `successes`, `failures`).  Because `record` is
an atomic (locked) append, a concurrent execution by any number of workers
is observationally one serial sequence of `record` calls, which is how it is
embedded here. -/

/-- Modelled from the spec: a `Sample`, the immutable record of one send
attempt (`metrics.py` is not under `src/`). -/
structure Sample where
  start_time : ℚ
  end_time : ℚ
  success : Bool
  status_code : Option Int
  error : Option String
deriving DecidableEq

/-- Modelled from the spec: `PerfMetrics` holds the append-only sequence of
recorded samples (`metrics.py` is not under `src/`). -/
structure PerfMetrics where
  samples : List Sample
deriving DecidableEq

/-- Modelled from the spec: `record(sample)` is a thread-safe (lock-guarded,
hence atomic) append. -/
def PerfMetrics.record (m : PerfMetrics) (s : Sample) : PerfMetrics :=
  ⟨m.samples ++ [s]⟩

/-- Modelled from the spec: `total`, the count of recorded samples. -/
def PerfMetrics.total (m : PerfMetrics) : Nat := m.samples.length

/-- Modelled from the spec: `successes`, the count of successful samples. -/
def PerfMetrics.successes (m : PerfMetrics) : Nat :=
  (m.samples.filter fun s => s.success).length

/-- Modelled from the spec: `failures`, the count of failed samples. -/
def PerfMetrics.failures (m : PerfMetrics) : Nat :=
  (m.samples.filter fun s => !s.success).length

/-- One serialized history of `record` calls: because each append is atomic,
any concurrent run of workers is observationally equal to some such
sequence. -/
def recordAll (m : PerfMetrics) (l : List Sample) : PerfMetrics :=
  l.foldl PerfMetrics.record m

/-! ## Call-signature model for `verify_study_arrived`

`verify_study_arrived` is a plain Python function; a call binds only if
every keyword argument names a declared parameter (the function declares no
catch-all `**kwargs`). -/

/-- The declared parameter names of `verify_study_arrived`
(`src/tests/conftest.py`). -/
def verifyStudyArrivedParams : List String :=
  ["cfind_client", "study_uid", "perf_config"]

/-- The keyword arguments used by the call sites that pass the secondary
(patient-key) filter, e.g. `src/tests/test_load_stability.py` line 65. -/
def loadStabilityCallKwargs : List String := ["patient_id"]

/-- Whether a Python call with the given keyword arguments binds against a
signature with the given parameter names and no `**kwargs`. -/
def kwargsAccepted (params kwargs : List String) : Bool :=
  kwargs.all fun kw => params.contains kw

end Dic

namespace Dic

/-! ## Step lemmas for the polling loop -/

lemma verifyLoop_step_timeout (lookup : Nat → LookupStep) (uid host : String)
    (T I elapsed e1 : ℚ) (att fuel : Nat)
    (hres : (lookup (att + 1)).res = .notFound)
    (he1 : elapsed + (lookup (att + 1)).dur = e1)
    (hT : T ≤ e1) :
    verifyLoop lookup uid host T I elapsed att (fuel + 1) =
      ⟨[.query (att + 1)], .timedOut uid T (att + 1), e1⟩ := by
  simp only [verifyLoop, hres, he1, if_pos hT]

lemma verifyLoop_step_found (lookup : Nat → LookupStep) (uid host : String)
    (T I elapsed e1 : ℚ) (att fuel : Nat) (d : Dataset)
    (hres : (lookup (att + 1)).res = .found d)
    (he1 : elapsed + (lookup (att + 1)).dur = e1) :
    verifyLoop lookup uid host T I elapsed att (fuel + 1) =
      ⟨[.query (att + 1)], .found (dataset_to_dict d), e1⟩ := by
  simp only [verifyLoop, hres, he1]

lemma verifyLoop_step_gai (lookup : Nat → LookupStep) (uid host : String)
    (T I elapsed e1 : ℚ) (att fuel : Nat)
    (hres : (lookup (att + 1)).res = .raiseGai)
    (he1 : elapsed + (lookup (att + 1)).dur = e1) :
    verifyLoop lookup uid host T I elapsed att (fuel + 1) =
      ⟨[.query (att + 1)], .gaiError host, e1⟩ := by
  simp only [verifyLoop, hres, he1]

lemma verifyLoop_step_sleep (lookup : Nat → LookupStep) (uid host : String)
    (T I elapsed e1 s e2 : ℚ) (att fuel : Nat)
    (hres : (lookup (att + 1)).res = .notFound)
    (he1 : elapsed + (lookup (att + 1)).dur = e1)
    (hT : ¬ T ≤ e1)
    (hs : min I (T - e1) = s)
    (hpos : 0 < s)
    (he2 : e1 + s = e2) :
    verifyLoop lookup uid host T I elapsed att (fuel + 1) =
      ⟨.query (att + 1) :: .sleep s ::
         (verifyLoop lookup uid host T I e2 (att + 1) fuel).events,
       (verifyLoop lookup uid host T I e2 (att + 1) fuel).outcome,
       (verifyLoop lookup uid host T I e2 (att + 1) fuel).finalElapsed⟩ := by
  simp only [verifyLoop, hres, he1, if_neg hT, hs, if_pos hpos, he2]

lemma verifyLoop_step_nosleep (lookup : Nat → LookupStep) (uid host : String)
    (T I elapsed e1 : ℚ) (att fuel : Nat)
    (hres : (lookup (att + 1)).res = .notFound)
    (he1 : elapsed + (lookup (att + 1)).dur = e1)
    (hT : ¬ T ≤ e1)
    (hnpos : ¬ 0 < min I (T - e1)) :
    verifyLoop lookup uid host T I elapsed att (fuel + 1) =
      ⟨.query (att + 1) ::
         (verifyLoop lookup uid host T I e1 (att + 1) fuel).events,
       (verifyLoop lookup uid host T I e1 (att + 1) fuel).outcome,
       (verifyLoop lookup uid host T I e1 (att + 1) fuel).finalElapsed⟩ := by
  simp only [verifyLoop, hres, he1, if_neg hT, if_neg hnpos]

lemma countQueries_nil : countQueries [] = 0 := rfl

lemma countQueries_cons_query (k : Nat) (tl : List Event) :
    countQueries (.query k :: tl) = countQueries tl + 1 := by
  simp [countQueries, List.filter]

lemma countQueries_cons_sleep (t : ℚ) (tl : List Event) :
    countQueries (.sleep t :: tl) = countQueries tl := by
  simp [countQueries, List.filter]

end Dic

namespace Dic

/-! ## Claim theorems: the C-FIND client -/

/-- Claim C8 (confirmed): `find_study_by_uid` leaves `config.query_model`
unchanged on every return path — match found under either model, no match,
or all attempts failing — even though it overwrites the field for each model
it tries. -/
theorem find_study_config_unchanged (cfg : CFindConfig) (oracle : Oracle)
    (uid : String) :
    (find_study_by_uid cfg oracle uid).1.query_model = cfg.query_model := by
  unfold find_study_by_uid
  rcases h1 : tryQueryModel cfg oracle uid "PATIENT" with ⟨cfg1, r1⟩
  cases r1 with
  | some d => simp [h1]
  | none =>
    rcases h2 : tryQueryModel cfg1 oracle uid "STUDY" with ⟨cfg2, r2⟩
    cases r2 <;> simp [h1, h2]

/-- Claim C9 (confirmed): `find_study_by_uid` never propagates an exception
from executing a C-FIND query: whatever each per-model `_execute_find`
attempt does (including raising), the method returns `ok` — with the first
matching dataset of the PATIENT attempt, else the first matching dataset of
the STUDY attempt, else `none`. -/
theorem find_study_never_raises (cfg : CFindConfig) (oracle : Oracle)
    (uid : String) :
    (find_study_by_uid cfg oracle uid).2 =
      .ok (match execute_find { cfg with query_model := "PATIENT" } oracle
              (buildStudyQuery uid) with
           | .ok (d :: _) => some d
           | .ok [] | .error _ =>
             match execute_find { cfg with query_model := "STUDY" } oracle
                 (buildStudyQuery uid) with
             | .ok (d :: _) => some d
             | .ok [] | .error _ => none) := by
  unfold find_study_by_uid tryQueryModel
  cases h1 : execute_find { cfg with query_model := "PATIENT" } oracle (buildStudyQuery uid) with
  | ok l =>
    cases l with
    | nil =>
      cases h2 : execute_find { cfg with query_model := "STUDY" } oracle (buildStudyQuery uid) with
      | ok l2 => cases l2 <;> simp [h1, h2]
      | error e => simp [h1, h2]
    | cons d tl => simp [h1]
  | error e =>
    cases h2 : execute_find { cfg with query_model := "STUDY" } oracle (buildStudyQuery uid) with
    | ok l2 => cases l2 <;> simp [h1, h2]
    | error e2 => simp [h1, h2]

/-! ## Claim theorems: the poller, immediate cases -/

/-- Claim C3 (confirmed): with the lookup collaborator absent (`None`), the
poll operation returns `None` immediately: zero queries, no sleep, no error,
for every timeout and poll-interval setting. -/
theorem verify_disabled_returns_none (uid : String) (T I : ℚ) (fuel : Nat) :
    verify_study_arrived none uid T I fuel = ⟨[], .disabledNone, 0⟩ ∧
    countQueries (verify_study_arrived none uid T I fuel).events = 0 ∧
    totalSlept (verify_study_arrived none uid T I fuel).events = 0 :=
  ⟨rfl, rfl, rfl⟩

/-- Claim C6 (code bug): the call sites pass the secondary filter as the
keyword argument `patient_id`, but the signature of `verify_study_arrived`
declares no such parameter (and no `**kwargs`), so the two-argument call
form of the claim does not bind — Python raises `TypeError`. -/
theorem secondary_filter_kwarg_rejected :
    kwargsAccepted verifyStudyArrivedParams loadStabilityCallKwargs = false := by
  decide

/-! ## Claim theorems: `PerfMetrics` -/

lemma recordAll_samples (l : List Sample) (m : PerfMetrics) :
    (recordAll m l).samples = m.samples ++ l := by
  induction l generalizing m with
  | nil => simp [recordAll]
  | cons a tl ih =>
    show (recordAll (m.record a) tl).samples = m.samples ++ (a :: tl)
    rw [ih (m.record a)]
    simp [PerfMetrics.record]

lemma length_filter_success (l : List Sample) :
    l.length = (l.filter fun s => s.success).length +
      (l.filter fun s => !s.success).length := by
  induction l with
  | nil => rfl
  | cons a tl ih =>
    cases h : a.success <;> simp [List.filter_cons, h, ih] <;> omega

/-- Claim C7 (confirmed, spec-modelled): over every serialized history of
`record` calls — which covers every concurrent run, since each append is
atomic under the collector's lock — the recorded samples are exactly the
recorded history (none lost, none duplicated) and
`total = successes + failures = len(samples)`.  Quantifying over all
histories covers every prefix, hence "at all times". -/
theorem perfMetrics_count_invariant (l : List Sample) :
    (recordAll ⟨[]⟩ l).samples = l ∧
    (recordAll ⟨[]⟩ l).total =
      (recordAll ⟨[]⟩ l).successes + (recordAll ⟨[]⟩ l).failures ∧
    (recordAll ⟨[]⟩ l).total = (recordAll ⟨[]⟩ l).samples.length := by
  have hs : (recordAll ⟨[]⟩ l).samples = l := by
    simpa using recordAll_samples l ⟨[]⟩
  refine ⟨hs, ?_, rfl⟩
  simp only [PerfMetrics.total, PerfMetrics.successes, PerfMetrics.failures, hs]
  exact length_filter_success l

/-! ## Claim theorems: the poller always queries at least once -/

lemma verifyLoop_events_head (lookup : Nat → LookupStep) (uid host : String)
    (T I elapsed : ℚ) (att fuel : Nat) :
    ∃ tl, (verifyLoop lookup uid host T I elapsed att (fuel + 1)).events
            = .query (att + 1) :: tl := by
  cases hres : (lookup (att + 1)).res with
  | found d =>
    exact ⟨[], by rw [verifyLoop_step_found lookup uid host T I elapsed _ att fuel d hres rfl]⟩
  | raiseGai =>
    exact ⟨[], by rw [verifyLoop_step_gai lookup uid host T I elapsed _ att fuel hres rfl]⟩
  | raiseOther =>
    refine ⟨[], ?_⟩
    simp only [verifyLoop, hres]
  | notFound =>
    by_cases hT : T ≤ elapsed + (lookup (att + 1)).dur
    · exact ⟨[], by
        rw [verifyLoop_step_timeout lookup uid host T I elapsed _ att fuel hres rfl hT]⟩
    · by_cases hpos : 0 < min I (T - (elapsed + (lookup (att + 1)).dur))
      · refine ⟨.sleep (min I (T - (elapsed + (lookup (att + 1)).dur))) ::
            (verifyLoop lookup uid host T I
              (elapsed + (lookup (att + 1)).dur +
                min I (T - (elapsed + (lookup (att + 1)).dur)))
              (att + 1) fuel).events, ?_⟩
        rw [verifyLoop_step_sleep lookup uid host T I elapsed _ _ _ att fuel hres rfl hT rfl
              hpos rfl]
      · refine ⟨(verifyLoop lookup uid host T I
            (elapsed + (lookup (att + 1)).dur) (att + 1) fuel).events, ?_⟩
        rw [verifyLoop_step_nosleep lookup uid host T I elapsed _ att fuel hres rfl hT hpos]

/-- Claim C10 (confirmed): with the lookup collaborator present, the poller
always issues at least one lookup query, for every timeout value including
zero or negative ones, because the timeout check only runs after an
unsuccessful attempt. -/
theorem verify_at_least_one_query (c : Client) (uid : String) (T I : ℚ)
    (fuel : Nat) (hfuel : 1 ≤ fuel) :
    1 ≤ countQueries (verify_study_arrived (some c) uid T I fuel).events := by
  obtain ⟨f, rfl⟩ : ∃ f, fuel = f + 1 := ⟨fuel - 1, by omega⟩
  obtain ⟨tl, htl⟩ := verifyLoop_events_head c.lookup uid c.host T I 0 0 f
  show 1 ≤ countQueries (verifyLoop c.lookup uid c.host T I 0 0 (f + 1)).events
  rw [htl, countQueries_cons_query]
  omega

/-- Witness for C10: a client whose lookup never matches, with a negative
timeout, still issues a query. -/
theorem verify_at_least_one_query_witness :
    1 ≤ 1 ∧
    1 ≤ countQueries (verify_study_arrived
          (some ⟨"h", fun _ => ⟨0, .notFound⟩⟩) "u" (-1) 1 1).events :=
  ⟨le_refl 1,
   verify_at_least_one_query ⟨"h", fun _ => ⟨0, .notFound⟩⟩ "u" (-1) 1 1 (le_refl 1)⟩

end Dic

namespace Dic

/-! ## Claim theorems: per-step sleep formula -/

/-- Claim C5 (confirmed): on a poll attempt where the lookup returns no
match and the elapsed time `e1` (after the query) is still below the
timeout, the poller sleeps exactly `s = min(poll_interval, timeout - e1)`
seconds before the next attempt (a computed sleep of zero means no `sleep`
call, i.e. zero seconds slept), and the attempt counter grows by exactly
one per query issued.  The poll interval is a duration, hence
non-negative. -/
theorem verify_sleep_formula (lookup : Nat → LookupStep) (uid host : String)
    (T I elapsed e1 s : ℚ) (att fuel : Nat)
    (hI : 0 ≤ I)
    (hres : (lookup (att + 1)).res = .notFound)
    (he1 : elapsed + (lookup (att + 1)).dur = e1)
    (hlt : e1 < T)
    (hs : min I (T - e1) = s) :
    verifyLoop lookup uid host T I elapsed att (fuel + 1) =
      ⟨.query (att + 1) ::
         ((if 0 < s then [Event.sleep s] else []) ++
           (verifyLoop lookup uid host T I (e1 + s) (att + 1) fuel).events),
       (verifyLoop lookup uid host T I (e1 + s) (att + 1) fuel).outcome,
       (verifyLoop lookup uid host T I (e1 + s) (att + 1) fuel).finalElapsed⟩ ∧
    totalSlept (if 0 < s then [Event.sleep s] else []) = s ∧
    countQueries (verifyLoop lookup uid host T I elapsed att (fuel + 1)).events =
      countQueries (verifyLoop lookup uid host T I (e1 + s) (att + 1) fuel).events + 1 := by
  have hT : ¬ T ≤ e1 := not_le.mpr hlt
  by_cases hpos : 0 < s
  · have h₁ := verifyLoop_step_sleep lookup uid host T I elapsed e1 s (e1 + s) att fuel
      hres he1 hT hs hpos rfl
    refine ⟨?_, ?_, ?_⟩
    · rw [h₁, if_pos hpos]
      rfl
    · rw [if_pos hpos]
      simp [totalSlept]
    · rw [h₁]
      simp [countQueries_cons_query, countQueries_cons_sleep]
  · have hs0 : s = 0 := le_antisymm (not_lt.mp hpos) (hs ▸ le_min hI (by linarith))
    have hnpos : ¬ 0 < min I (T - e1) := by rw [hs]; exact hpos
    have h₁ := verifyLoop_step_nosleep lookup uid host T I elapsed e1 att fuel
      hres he1 hT hnpos
    have he2 : e1 + s = e1 := by rw [hs0, add_zero]
    refine ⟨?_, ?_, ?_⟩
    · rw [h₁, if_neg hpos, he2]
      rfl
    · rw [if_neg hpos, hs0]
      rfl
    · rw [h₁, he2]
      simp [countQueries_cons_query]

/-- Witness for C5: a no-match attempt at elapsed 0 with interval 2 and
timeout 5 sleeps exactly `min 2 (5 - 0) = 2` seconds. -/
theorem verify_sleep_formula_witness :
    (0:ℚ) ≤ 2 ∧
    ((fun _ => (⟨0, LookupRes.notFound⟩ : LookupStep)) (0 + 1)).res = .notFound ∧
    (0:ℚ) + ((fun _ => (⟨0, LookupRes.notFound⟩ : LookupStep)) (0 + 1)).dur = 0 ∧
    (0:ℚ) < 5 ∧
    min (2:ℚ) (5 - 0) = 2 ∧
    (verifyLoop (fun _ => ⟨0, .notFound⟩) "u" "h" 5 2 0 0 (0 + 1) =
      ⟨.query (0 + 1) ::
         ((if (0:ℚ) < 2 then [Event.sleep 2] else []) ++
           (verifyLoop (fun _ => ⟨0, .notFound⟩) "u" "h" 5 2 (0 + 2) (0 + 1) 0).events),
       (verifyLoop (fun _ => ⟨0, .notFound⟩) "u" "h" 5 2 (0 + 2) (0 + 1) 0).outcome,
       (verifyLoop (fun _ => ⟨0, .notFound⟩) "u" "h" 5 2 (0 + 2) (0 + 1) 0).finalElapsed⟩ ∧
     totalSlept (if (0:ℚ) < 2 then [Event.sleep 2] else []) = 2 ∧
     countQueries (verifyLoop (fun _ => ⟨0, .notFound⟩) "u" "h" 5 2 0 0 (0 + 1)).events =
       countQueries
         (verifyLoop (fun _ => ⟨0, .notFound⟩) "u" "h" 5 2 (0 + 2) (0 + 1) 0).events + 1) :=
  ⟨by norm_num, rfl, by norm_num, by norm_num, by norm_num,
   verify_sleep_formula (fun _ => ⟨0, .notFound⟩) "u" "h" 5 2 0 0 2 0 0
     (by norm_num) rfl (by norm_num) (by norm_num) (by norm_num)⟩

end Dic

namespace Dic

/-! ## Claim theorems: timeout behaviour -/

lemma verifyLoop_timeout_of_notFound (lookup : Nat → LookupStep) (uid host : String)
    (T I : ℚ)
    (hres : ∀ k, (lookup k).res = .notFound)
    (hdur : ∀ k, 0 ≤ (lookup k).dur)
    (hI : 0 < I) :
    ∀ (n : Nat) (elapsed : ℚ) (att fuel : Nat),
      T - elapsed ≤ n * I → n < fuel →
      ∃ evs eF,
        verifyLoop lookup uid host T I elapsed att fuel =
          ⟨evs, .timedOut uid T (att + countQueries evs), eF⟩ ∧
        1 ≤ countQueries evs := by
  intro n
  induction n with
  | zero =>
    intro elapsed att fuel hle hfuel
    obtain ⟨f, rfl⟩ : ∃ f, fuel = f + 1 := ⟨fuel - 1, by omega⟩
    have hd := hdur (att + 1)
    have he : T ≤ elapsed + (lookup (att + 1)).dur := by
      push_cast at hle
      linarith
    refine ⟨[.query (att + 1)], elapsed + (lookup (att + 1)).dur, ?_, ?_⟩
    · rw [verifyLoop_step_timeout lookup uid host T I elapsed _ att f (hres (att + 1)) rfl he]
      have : countQueries [Event.query (att + 1)] = 1 := by
        simp [countQueries_cons_query, countQueries_nil]
      rw [this]
    · simp [countQueries_cons_query, countQueries_nil]
  | succ n ih =>
    intro elapsed att fuel hle hfuel
    obtain ⟨f, rfl⟩ : ∃ f, fuel = f + 1 := ⟨fuel - 1, by omega⟩
    have hd := hdur (att + 1)
    by_cases hT : T ≤ elapsed + (lookup (att + 1)).dur
    · refine ⟨[.query (att + 1)], elapsed + (lookup (att + 1)).dur, ?_, ?_⟩
      · rw [verifyLoop_step_timeout lookup uid host T I elapsed _ att f (hres (att + 1)) rfl hT]
        have : countQueries [Event.query (att + 1)] = 1 := by
          simp [countQueries_cons_query, countQueries_nil]
        rw [this]
      · simp [countQueries_cons_query, countQueries_nil]
    · have hrem : 0 < T - (elapsed + (lookup (att + 1)).dur) := by
        have := not_le.mp hT
        linarith
      have hpos : 0 < min I (T - (elapsed + (lookup (att + 1)).dur)) :=
        lt_min_iff.mpr ⟨hI, hrem⟩
      have hstep : T - (elapsed + (lookup (att + 1)).dur +
          min I (T - (elapsed + (lookup (att + 1)).dur))) ≤ n * I := by
        push_cast at hle ⊢
        rcases le_total I (T - (elapsed + (lookup (att + 1)).dur)) with h | h
        · rw [min_eq_left h]
          linarith
        · rw [min_eq_right h]
          have : (0:ℚ) ≤ n * I := by positivity
          linarith
      obtain ⟨evs, eF, heq, hcq⟩ :=
        ih (elapsed + (lookup (att + 1)).dur +
              min I (T - (elapsed + (lookup (att + 1)).dur))) (att + 1) f hstep (by omega)
    
      refine ⟨.query (att + 1) ::
          .sleep (min I (T - (elapsed + (lookup (att + 1)).dur))) :: evs, eF, ?_, ?_⟩
      · rw [verifyLoop_step_sleep lookup uid host T I elapsed _ _ _ att f (hres (att + 1))
            rfl hT rfl hpos rfl, heq]
        have : countQueries (Event.query (att + 1) ::
            Event.sleep (min I (T - (elapsed + (lookup (att + 1)).dur))) :: evs) =
            countQueries evs + 1 := by
          rw [countQueries_cons_query, countQueries_cons_sleep]
        rw [this]
        have : att + 1 + countQueries evs = att + (countQueries evs + 1) := by omega
        rw [this]
      · rw [countQueries_cons_query, countQueries_cons_sleep]
        omega

/-- Claim C1, amended (corrected): when every lookup attempt returns no
match and the poll interval is positive, the poller eventually raises (does
not return normally), and the raised error embeds the target identifier,
the configured timeout value, and the number of attempts made (one per
query issued).  The source message (`"study {uid} not found after
{timeout}s ({attempts} attempts)"`) interpolates the timeout setting, not
the measured elapsed time — see the counterexample. -/
theorem verify_timeout_error_content (lookup : Nat → LookupStep) (uid host : String)
    (T I : ℚ)
    (hres : ∀ k, (lookup k).res = .notFound)
    (hdur : ∀ k, 0 ≤ (lookup k).dur)
    (hI : 0 < I) :
    ∃ fuel evs eF,
      verify_study_arrived (some ⟨host, lookup⟩) uid T I fuel =
        ⟨evs, .timedOut uid T (countQueries evs), eF⟩ ∧
      1 ≤ countQueries evs := by
  obtain ⟨n, hn⟩ := exists_nat_ge (T / I)
  have hTle : T - 0 ≤ (n : ℚ) * I := by
    rw [sub_zero]
    calc T = T / I * I := (div_mul_cancel₀ T (ne_of_gt hI)).symm
    _ ≤ (n : ℚ) * I := mul_le_mul_of_nonneg_right hn hI.le
  obtain ⟨evs, eF, heq, hcq⟩ :=
    verifyLoop_timeout_of_notFound lookup uid host T I hres hdur hI n 0 0 (n + 1)
      hTle (by omega)
  refine ⟨n + 1, evs, eF, ?_, hcq⟩
  show verifyLoop lookup uid host T I 0 0 (n + 1) = _
  rw [heq]
  have : 0 + countQueries evs = countQueries evs := by omega
  rw [this]

/-- Counterexample to claim C1 as stated: with a lookup that takes 3 seconds
per attempt and never matches, timeout 5 and interval 1, the run raises
after 2 attempts with 7 seconds elapsed, but the error's seconds figure is
the timeout value 5, not the elapsed time 7 — the raised error does not
embed the elapsed time. -/
theorem verify_timeout_message_counterexample :
    verify_study_arrived (some ⟨"h", fun _ => ⟨3, .notFound⟩⟩) "u" 5 1 10 =
      ⟨[.query 1, .sleep 1, .query 2], .timedOut "u" 5 2, 7⟩ ∧ (5:ℚ) ≠ 7 := by
  constructor
  · show verifyLoop (fun _ => ⟨3, .notFound⟩) "u" "h" 5 1 0 0 10 = _
    rw [verifyLoop_step_sleep _ _ _ 5 1 0 3 1 4 0 9 rfl (by norm_num) (by norm_num)
          (by norm_num) (by norm_num) (by norm_num),
        verifyLoop_step_timeout _ _ _ 5 1 4 7 1 8 rfl (by norm_num) (by norm_num)]
  · norm_num

/-- Witness for the amended C1: instant lookups that never match, timeout 2,
interval 1. -/
theorem verify_timeout_error_content_witness :
    (∀ k : Nat, ((fun _ : Nat => (⟨0, LookupRes.notFound⟩ : LookupStep)) k).res
        = .notFound) ∧
    (∀ k : Nat, (0:ℚ) ≤ ((fun _ : Nat => (⟨0, LookupRes.notFound⟩ : LookupStep)) k).dur) ∧
    (0:ℚ) < 1 ∧
    ∃ fuel evs eF,
      verify_study_arrived (some ⟨"h", fun _ => ⟨0, .notFound⟩⟩) "u" 2 1 fuel =
        ⟨evs, .timedOut "u" 2 (countQueries evs), eF⟩ ∧
      1 ≤ countQueries evs :=
  ⟨fun _ => rfl, fun _ => le_refl 0, by norm_num,
   verify_timeout_error_content (fun _ => ⟨0, .notFound⟩) "u" "h" 2 1
     (fun _ => rfl) (fun _ => le_refl 0) (by norm_num)⟩

end Dic

namespace Dic

/-! ## Claim theorems: match found on attempt k -/

lemma verifyLoop_found_after (lookup : Nat → LookupStep) (uid host : String)
    (T I : ℚ) (d : Dataset) :
    ∀ (r att fuel : Nat), 1 ≤ r → r ≤ fuel →
      (lookup (att + r)).res = .found d →
      (∀ j, att < j → j < att + r → (lookup j).res = .notFound) →
      (∀ j, att ≤ j → j + 1 < att + r →
        sElapsed lookup T I j + (lookup (j + 1)).dur < T) →
      ∃ evs eF,
        verifyLoop lookup uid host T I (sElapsed lookup T I att) att fuel =
          ⟨evs ++ [.query (att + r)], .found (dataset_to_dict d), eF⟩ ∧
        countQueries (evs ++ [.query (att + r)]) = r := by
  intro r
  induction r with
  | zero =>
    intro att fuel h1 hfuel hfound hnf hlt
    exact absurd h1 (by omega)
  | succ r ih =>
    intro att fuel h1 hfuel hfound hnf hlt
    obtain ⟨f, rfl⟩ : ∃ f, fuel = f + 1 := ⟨fuel - 1, by omega⟩
    rcases Nat.eq_zero_or_pos r with hr0 | hrpos
    · subst hr0
      have hfound1 : (lookup (att + 1)).res = .found d := by simpa using hfound
      refine ⟨[], sElapsed lookup T I att + (lookup (att + 1)).dur, ?_, ?_⟩
      · rw [verifyLoop_step_found lookup uid host T I _ _ att f d hfound1 rfl]
        simp
      · simp [countQueries, List.filter]
    · have hnf1 : (lookup (att + 1)).res = .notFound := hnf (att + 1) (by omega) (by omega)
      have hlt1 : sElapsed lookup T I att + (lookup (att + 1)).dur < T :=
        hlt att (le_refl att) (by omega)
      have hT : ¬ T ≤ sElapsed lookup T I att + (lookup (att + 1)).dur := not_le.mpr hlt1
      have hsE : sElapsed lookup T I (att + 1) =
          if 0 < min I (T - (sElapsed lookup T I att + (lookup (att + 1)).dur))
          then sElapsed lookup T I att + (lookup (att + 1)).dur +
               min I (T - (sElapsed lookup T I att + (lookup (att + 1)).dur))
          else sElapsed lookup T I att + (lookup (att + 1)).dur := rfl
    
      have hfound' : (lookup ((att + 1) + r)).res = .found d := by
        have hidx : (att + 1) + r = att + (r + 1) := by omega
        rw [hidx]
        exact hfound
      have hnf' : ∀ j, att + 1 < j → j < (att + 1) + r → (lookup j).res = .notFound := by
        intro j hj1 hj2
        exact hnf j (by omega) (by omega)
      have hlt' : ∀ j, att + 1 ≤ j → j + 1 < (att + 1) + r →
          sElapsed lookup T I j + (lookup (j + 1)).dur < T := by
        intro j hj1 hj2
        exact hlt j (by omega) (by omega)
      obtain ⟨evs, eF, heq, hcq⟩ := ih (att + 1) f hrpos (by omega) hfound' hnf' hlt'
      by_cases hpos : 0 < min I (T - (sElapsed lookup T I att + (lookup (att + 1)).dur))
      · refine ⟨.query (att + 1) ::
            .sleep (min I (T - (sElapsed lookup T I att + (lookup (att + 1)).dur))) :: evs,
            eF, ?_, ?_⟩
        · rw [verifyLoop_step_sleep lookup uid host T I _ _ _ _ att f hnf1 rfl hT rfl hpos rfl]
          have harg : sElapsed lookup T I att + (lookup (att + 1)).dur +
              min I (T - (sElapsed lookup T I att + (lookup (att + 1)).dur)) =
              sElapsed lookup T I (att + 1) := by
            rw [hsE, if_pos hpos]
          rw [harg, heq]
          have hidx : (att + 1) + r = att + (r + 1) := by omega
          simp [hidx]
        · simp only [List.cons_append]
          rw [countQueries_cons_query, countQueries_cons_sleep]
          have hidx : (att + 1) + r = att + (r + 1) := by omega
          rw [← hidx, hcq]
      · refine ⟨.query (att + 1) :: evs, eF, ?_, ?_⟩
        · rw [verifyLoop_step_nosleep lookup uid host T I _ _ att f hnf1 rfl hT hpos]
          have harg : sElapsed lookup T I att + (lookup (att + 1)).dur =
              sElapsed lookup T I (att + 1) := by
            rw [hsE, if_neg hpos]
          rw [harg, heq]
          have hidx : (att + 1) + r = att + (r + 1) := by omega
          simp [hidx]
        · simp only [List.cons_append]
          rw [countQueries_cons_query]
          have hidx : (att + 1) + r = att + (r + 1) := by omega
          rw [← hidx, hcq]

/-- Claim C4 (confirmed): when the lookup first returns a non-empty match on
the k-th attempt and every earlier attempt found no match with elapsed time
below the timeout, the poller returns that match's attribute dictionary
(`dataset_to_dict`) after exactly k queries, with the trace ending at the
k-th query — no further polling or sleeping afterwards.  `sElapsed` is the
loop's deterministic elapsed time for such a prefix. -/
theorem verify_found_returns (lookup : Nat → LookupStep) (uid host : String)
    (T I : ℚ) (d : Dataset) (k fuel : Nat)
    (hk : 1 ≤ k) (hfuel : k ≤ fuel)
    (hfound : (lookup k).res = .found d)
    (hbelow : sElapsed lookup T I (k - 1) + (lookup k).dur < T)
    (hnf : ∀ j, 0 < j → j < k → (lookup j).res = .notFound)
    (hlt : ∀ j, j + 1 < k → sElapsed lookup T I j + (lookup (j + 1)).dur < T) :
    ∃ evs eF,
      verify_study_arrived (some ⟨host, lookup⟩) uid T I fuel =
        ⟨evs ++ [.query k], .found (dataset_to_dict d), eF⟩ ∧
      countQueries (evs ++ [.query k]) = k := by
  obtain ⟨evs, eF, heq, hcq⟩ :=
    verifyLoop_found_after lookup uid host T I d k 0 fuel hk hfuel
      (by simpa using hfound)
      (fun j hj hjk => hnf j hj (by omega))
      (fun j _ hjk => hlt j (by omega))
  simp only [Nat.zero_add] at heq hcq
  have h0 : sElapsed lookup T I 0 = 0 := rfl
  rw [h0] at heq
  exact ⟨evs, eF, heq, hcq⟩

/-- Witness for C4: instant lookups that miss on attempts 1 and 2 and match
on attempt 3, timeout 5, interval 1: the match dictionary is returned after
exactly 3 queries. -/
theorem verify_found_returns_witness :
    (1 ≤ 3) ∧ (3 ≤ 3) ∧
    (((fun j : Nat => if j = 3 then
        (⟨0, LookupRes.found [("StudyInstanceUID", "1.2.3")]⟩ : LookupStep)
      else ⟨0, .notFound⟩) 3).res = .found [("StudyInstanceUID", "1.2.3")]) ∧
    (sElapsed (fun j : Nat => if j = 3 then
        (⟨0, LookupRes.found [("StudyInstanceUID", "1.2.3")]⟩ : LookupStep)
      else ⟨0, .notFound⟩) 5 1 (3 - 1) +
      ((fun j : Nat => if j = 3 then
        (⟨0, LookupRes.found [("StudyInstanceUID", "1.2.3")]⟩ : LookupStep)
      else ⟨0, .notFound⟩) 3).dur < 5) ∧
    (∀ j, 0 < j → j < 3 → (((fun j : Nat => if j = 3 then
        (⟨0, LookupRes.found [("StudyInstanceUID", "1.2.3")]⟩ : LookupStep)
      else ⟨0, .notFound⟩) j).res = LookupRes.notFound)) ∧
    (∀ j, j + 1 < 3 → sElapsed (fun j : Nat => if j = 3 then
        (⟨0, LookupRes.found [("StudyInstanceUID", "1.2.3")]⟩ : LookupStep)
      else ⟨0, .notFound⟩) 5 1 j +
      ((fun j : Nat => if j = 3 then
        (⟨0, LookupRes.found [("StudyInstanceUID", "1.2.3")]⟩ : LookupStep)
      else ⟨0, .notFound⟩) (j + 1)).dur < 5) ∧
    ∃ evs eF,
      verify_study_arrived (some ⟨"h", fun j : Nat => if j = 3 then
          (⟨0, LookupRes.found [("StudyInstanceUID", "1.2.3")]⟩ : LookupStep)
        else ⟨0, .notFound⟩⟩) "u" 5 1 3 =
        ⟨evs ++ [.query 3],
         .found (dataset_to_dict [("StudyInstanceUID", "1.2.3")]), eF⟩ ∧
      countQueries (evs ++ [.query 3]) = 3 :=
  ⟨by norm_num, by norm_num, rfl,
   by norm_num [sElapsed, min_def],
   by intro j h1 h2; interval_cases j <;> rfl,
   by
     intro j h
     have hj : j = 0 ∨ j = 1 := by omega
     obtain rfl | rfl := hj
     · norm_num [sElapsed, min_def]
     · norm_num [sElapsed, min_def],
   verify_found_returns (fun j : Nat => if j = 3 then
      (⟨0, LookupRes.found [("StudyInstanceUID", "1.2.3")]⟩ : LookupStep)
    else ⟨0, .notFound⟩) "u" "h" 5 1 [("StudyInstanceUID", "1.2.3")] 3 3
     (by norm_num) (by norm_num) rfl
     (by norm_num [sElapsed, min_def])
     (by intro j h1 h2; interval_cases j <;> rfl)
     (by
       intro j h
       have hj : j = 0 ∨ j = 1 := by omega
       obtain rfl | rfl := hj
       · norm_num [sElapsed, min_def]
       · norm_num [sElapsed, min_def])⟩

/-! ## Claim theorems: resolution failures are swallowed, not raised -/

/-- Claim C2 (code bug, evaluated at the failing input): on a network where
every association attempt raises `socket.gaierror`, the composed poller —
`verify_study_arrived` polling `find_study_by_uid` — with timeout 5 and
interval 1 does not raise from the gaierror handler at all:
`find_study_by_uid` catches the resolution error internally and returns no
match, so the poller sleeps five times, issues six queries, consumes the
whole timeout budget and ends with the timeout error, not the resolution
error.  The `except socket.gaierror` branch of `verify_study_arrived` is
unreachable. -/
theorem gaierror_retried_until_timeout :
    verify_study_arrived (some (cfindClient cfgEx gaiNet (fun _ => 0) "1.2.3"))
      "1.2.3" 5 1 10 =
      ⟨[.query 1, .sleep 1, .query 2, .sleep 1, .query 3, .sleep 1, .query 4,
        .sleep 1, .query 5, .sleep 1, .query 6],
       .timedOut "1.2.3" 5 6, 5⟩ := by
  show verifyLoop (cfindLookup cfgEx gaiNet (fun _ => 0) "1.2.3")
      "1.2.3" "badhost" 5 1 0 0 10 = _
  rw [verifyLoop_step_sleep _ _ _ 5 1 0 0 1 1 0 9 rfl (by norm_num [cfindLookup])
        (by norm_num) (by norm_num) (by norm_num) (by norm_num),
      verifyLoop_step_sleep _ _ _ 5 1 1 1 1 2 1 8 rfl (by norm_num [cfindLookup])
        (by norm_num) (by norm_num) (by norm_num) (by norm_num),
      verifyLoop_step_sleep _ _ _ 5 1 2 2 1 3 2 7 rfl (by norm_num [cfindLookup])
        (by norm_num) (by norm_num) (by norm_num) (by norm_num),
      verifyLoop_step_sleep _ _ _ 5 1 3 3 1 4 3 6 rfl (by norm_num [cfindLookup])
        (by norm_num) (by norm_num) (by norm_num) (by norm_num),
      verifyLoop_step_sleep _ _ _ 5 1 4 4 1 5 4 5 rfl (by norm_num [cfindLookup])
        (by norm_num) (by norm_num) (by norm_num) (by norm_num),
      verifyLoop_step_timeout _ _ _ 5 1 5 5 5 4 rfl (by norm_num [cfindLookup])
        (by norm_num)]

end Dic
